import Mathlib

/-!
Verification development for the pymediasoup negotiation core.

Shallow embedding of:
- `pymediasoup/ortc.py` (capability negotiation),
- `pymediasoup/transport.py` (consume / produceData flows),
- `pymediasoup/handlers/sdp/remote_sdp.py` and `media_section.py` (session builder),
- `pymediasoup/handlers/sdp/sdp_transform.py` (SDP grammar engine).

Python dictionaries are modelled as association lists, mutation as explicit
state passing, raised exceptions as `Except`/`Option` results.  All payload
types, clock rates and ports are Python ints, modelled as `Int`.
-/

namespace Pymediasoup

/-- A Python scalar value as it occurs in codec parameter dictionaries:
an int, a str, or None. -/
inductive PVal where
  | i : Int → PVal
  | s : String → PVal
  | nil : PVal
deriving DecidableEq, Repr

/-- A codec parameter dictionary (string-keyed, scalar-valued). -/
abbrev Params := List (String × PVal)

/-- `d.get(k)` on a parameter dictionary: the stored value, or Python None
when the key is absent (Python `dict.get` returns None by default). -/
def pget (d : Params) (k : String) : PVal :=
  match d.find? (fun kv => kv.1 = k) with
  | some kv => kv.2
  | none => PVal.nil

/-- `d.get(k, dflt)` on a parameter dictionary. -/
def pgetD (d : Params) (k : String) (dflt : PVal) : PVal :=
  match d.find? (fun kv => kv.1 = k) with
  | some kv => kv.2
  | none => dflt

/-- Whether the key is present in the dictionary. -/
def phas (d : Params) (k : String) : Bool :=
  (d.find? (fun kv => kv.1 = k)).isSome

/-- `d[k] = v`: replace in place if the key exists (Python dicts keep
insertion order), else append. -/
def pset : Params → String → PVal → Params
  | [], k, v => [(k, v)]
  | kv :: rest, k, v =>
    if kv.1 = k then (k, v) :: rest else kv :: pset rest k v

/-- `del d[k]` when the key is present (the caller checks presence first). -/
def perase (d : Params) (k : String) : Params :=
  d.filter (fun kv => kv.1 ≠ k)

/-- Python equality between a parameter value and an int
(`v == n` with n an int): ints compare by value, a str or None never
equals an int. -/
def pvalEqInt (v : PVal) (n : Int) : Bool :=
  match v with
  | PVal.i m => m = n
  | _ => false

/-- Python truthiness of an optional int (None and 0 are falsy). -/
def truthyOptInt (o : Option Int) : Bool :=
  match o with
  | none => false
  | some n => n ≠ 0

/-- Python truthiness of an optional string (None and the empty string are
falsy). -/
def truthyOptStr (o : Option String) : Bool :=
  match o with
  | none => false
  | some s => s ≠ ""

/-- ASCII lowering of one character (Python `str.lower` on the ASCII mime
type strings this code compares). -/
def lowerChar (c : Char) : Char :=
  if 65 ≤ c.toNat ∧ c.toNat ≤ 90 then Char.ofNat (c.toNat + 32) else c

/-- Python `s.lower()` (the compared strings are ASCII mime types). -/
def pyLower (s : String) : String := String.mk (s.data.map lowerChar)

/-- Python `s.endswith(suffix)`. -/
def pyEndsWith (s suffix : String) : Bool :=
  if suffix.data.length ≤ s.data.length then
    s.data.drop (s.data.length - suffix.data.length) = suffix.data
  else false

/-- Exceptions raised by the embedded code. -/
inductive PyErr where
  | keyError : String → PyErr
  | attributeError : String → PyErr
  | typeError : String → PyErr
  | indexError : PyErr
  | exception : String → PyErr
  | unsupportedError : String → PyErr
  | invalidStateError : String → PyErr
deriving DecidableEq, Repr

/-! ## Capability data model (`pymediasoup/rtp_parameters.py`)

The pydantic models are embedded as structures.  `Optional[T]` fields are
`Option T`; fields whose pydantic type is a required `int` are `Int`. -/

/-- `RtcpFeedback`: type plus optional sub-parameter (default empty). -/
structure RtcpFeedbackT where
  type : String
  parameter : String := ""
deriving DecidableEq, Repr

/-- `RtpCodecCapability`: a capability codec. -/
structure RtpCodecCap where
  mimeType : String
  kind : String
  clockRate : Int
  channels : Option Int := none
  preferredPayloadType : Option Int := none
  parameters : Params := []
  rtcpFeedback : List RtcpFeedbackT := []
deriving DecidableEq, Repr

/-- `RtpCodecParameters`: a codec in use (payload type required). -/
structure RtpCodecParam where
  mimeType : String
  clockRate : Int
  channels : Option Int := none
  payloadType : Int
  parameters : Params := []
  rtcpFeedback : List RtcpFeedbackT := []
deriving DecidableEq, Repr

/-- `RtpHeaderExtension` capability. -/
structure RtpHeaderExtT where
  kind : Option String := none
  uri : String
  preferredId : Int
  preferredEncrypt : Bool := false
  direction : String := "sendrecv"
deriving DecidableEq, Repr

/-- `ExtendedCodec`: negotiation output for one matched codec.
`localPayloadType` and `remotePayloadType` are required ints in the pydantic
model (construction with None would fail validation), the RTX payload types
are optional. -/
structure ExtendedCodecT where
  mimeType : String
  kind : String
  clockRate : Int
  channels : Option Int := none
  rtcpFeedback : List RtcpFeedbackT := []
  localPayloadType : Int
  localRtxPayloadType : Option Int := none
  remotePayloadType : Int
  remoteRtxPayloadType : Option Int := none
  localParameters : Params := []
  remoteParameters : Params := []
deriving DecidableEq, Repr

/-- `ExtendedHeaderExtension`. -/
structure ExtendedHeaderExtT where
  kind : Option String := none
  uri : String
  sendId : Int
  recvId : Int
  encrypt : Bool
  direction : String := "sendrecv"
deriving DecidableEq, Repr

/-- `RtpCapabilities`. -/
structure RtpCapabilitiesT where
  codecs : List RtpCodecCap := []
  headerExtensions : List RtpHeaderExtT := []
  fecMechanisms : List String := []
deriving DecidableEq, Repr

/-- `ExtendedRtpCapabilities`. -/
structure ExtendedRtpCapabilitiesT where
  codecs : List ExtendedCodecT := []
  headerExtensions : List ExtendedHeaderExtT := []
deriving DecidableEq, Repr

/-- `RtpHeaderExtensionParameters`. -/
structure RtpHeaderExtParam where
  uri : String
  id : Int
  encrypt : Bool := false
  parameters : Params := []
deriving DecidableEq, Repr

/-- `RtpEncodingParameters` (the fields used by this core). -/
structure RtpEncodingParam where
  ssrc : Option Int := none
  rid : Option String := none
  codecPayloadType : Option Int := none
  rtx : Option Int := none
  dtx : Bool := false
  scalabilityMode : Option String := none
  maxBitrate : Option Int := none
  maxFramerate : Option Int := none
deriving DecidableEq, Repr

/-- `RtcpParameters`. -/
structure RtcpParametersT where
  cname : Option String := none
  reducedSize : Bool := true
  mux : Option Bool := none
deriving DecidableEq, Repr

/-- `RtpParameters`. -/
structure RtpParametersT where
  mid : Option String := none
  codecs : List RtpCodecParam := []
  headerExtensions : List RtpHeaderExtParam := []
  encodings : List RtpEncodingParam := []
  rtcp : Option RtcpParametersT := none
deriving DecidableEq, Repr

/-! ## ORTC negotiation engine (`pymediasoup/ortc.py`) -/

/-- The external `h264_profile_level_id` library, kept abstract: the code
under verification only calls these two functions.  An `Except.error` result
of `generateProfileLevelIdForAnswer` models the TypeError that
`matchCodecs` catches. -/
structure H264Lib where
  isSameProfile : Params → Params → Bool
  generateProfileLevelIdForAnswer : Params → Params → Except Unit (Option String)

/-- The fields of a codec object that `matchCodecs` reads (the Python code
is duck-typed over `RtpCodecCapability` and `RtpCodecParameters`). -/
structure CodecCore where
  mimeType : String
  clockRate : Int
  channels : Option Int := none
  parameters : Params := []
deriving DecidableEq, Repr

/-- View of a capability codec for `matchCodecs`. -/
def RtpCodecCap.core (c : RtpCodecCap) : CodecCore :=
  { mimeType := c.mimeType, clockRate := c.clockRate,
    channels := c.channels, parameters := c.parameters }

/-- View of a parameters codec for `matchCodecs`. -/
def RtpCodecParam.core (c : RtpCodecParam) : CodecCore :=
  { mimeType := c.mimeType, clockRate := c.clockRate,
    channels := c.channels, parameters := c.parameters }

/-- `matchCodecs(aCodec, bCodec, strict, modify)`.  Returns the boolean
result together with the parameter dictionary of `aCodec`, which the Python
code mutates in place in the H264 strict+modify branch.  The
`del aCodec.parameters[..]` statement raises KeyError when the key is
absent, hence the `Except`. -/
def matchCodecs (lib : H264Lib) (aCodec bCodec : CodecCore)
    (strict : Bool := false) (modify : Bool := false) :
    Except PyErr (Bool × Params) :=
  let aMimeType := pyLower aCodec.mimeType
  let bMimeType := pyLower bCodec.mimeType
  if aMimeType ≠ bMimeType then Except.ok (false, aCodec.parameters)
  else if aCodec.clockRate ≠ bCodec.clockRate then Except.ok (false, aCodec.parameters)
  else if aCodec.channels ≠ bCodec.channels then Except.ok (false, aCodec.parameters)
  else if aMimeType = "video/h264" then
    let aPacketizationMode := pgetD aCodec.parameters "packetization-mode" (PVal.i 0)
    let bPacketizationMode := pgetD bCodec.parameters "packetization-mode" (PVal.i 0)
    if aPacketizationMode ≠ bPacketizationMode then Except.ok (false, aCodec.parameters)
    else if strict then
      if ¬ lib.isSameProfile aCodec.parameters bCodec.parameters then
        Except.ok (false, aCodec.parameters)
      else if modify then
        match lib.generateProfileLevelIdForAnswer aCodec.parameters bCodec.parameters with
        | Except.error _ => Except.ok (false, aCodec.parameters)
        | Except.ok selectedProfileLevelId =>
          if truthyOptStr selectedProfileLevelId then
            Except.ok (true, pset aCodec.parameters "profile-level-id"
              (PVal.s (selectedProfileLevelId.getD "")))
          else if phas aCodec.parameters "profile-level-id" then
            Except.ok (true, perase aCodec.parameters "profile-level-id")
          else
            Except.error (PyErr.keyError "profile-level-id")
      else Except.ok (true, aCodec.parameters)
    else Except.ok (true, aCodec.parameters)
  else if aMimeType = "video/vp9" then
    if strict then
      let aProfileId := pgetD aCodec.parameters "profile-id" (PVal.i 0)
      let bProfileId := pgetD bCodec.parameters "profile-id" (PVal.i 0)
      if aProfileId ≠ bProfileId then Except.ok (false, aCodec.parameters)
      else Except.ok (true, aCodec.parameters)
    else Except.ok (true, aCodec.parameters)
  else Except.ok (true, aCodec.parameters)

/-- `isRtxCodec` on a capability codec: mimeType ends with "/rtx". -/
def isRtxCodecCap (codec : RtpCodecCap) : Bool :=
  pyEndsWith codec.mimeType "/rtx"

/-- `isRtxCodec` on a parameters codec. -/
def isRtxCodecParam (codec : RtpCodecParam) : Bool :=
  pyEndsWith codec.mimeType "/rtx"

/-- `reduceRtcpFeedback(codecA, codecB)`: for each feedback of A, keep the
first feedback of B with the same type whose sub-parameter matches exactly
or is falsy (empty) on both sides. -/
def reduceRtcpFeedback (aFbs bFbs : List RtcpFeedbackT) : List RtcpFeedbackT :=
  aFbs.foldl (fun acc aFb =>
    let matchingBFbs := bFbs.filter (fun bFb =>
      bFb.type = aFb.type ∧
      (bFb.parameter = aFb.parameter ∨ (bFb.parameter = "" ∧ aFb.parameter = "")))
    match matchingBFbs with
    | [] => acc
    | bFb :: _ => acc ++ [bFb]) []

/-- `matchHeaderExtensions(aExt, bExt)`: equal kind and equal uri.
Python compares the Optional kinds with `!=`, so None equals None. -/
def matchHeaderExtensions (aExt bExt : RtpHeaderExtT) : Bool :=
  aExt.kind = bExt.kind ∧ aExt.uri = bExt.uri

/-- The list comprehension
`[lc for lc in localCaps.codecs if matchCodecs(lc, remoteCodec, strict=True, modify=True)]`:
each local codec is tested (and possibly modified in place by the
strict+modify branch), the matches are collected.  Returns the updated
local codec list together with the matching codecs. -/
def matchLocalCodecs (lib : H264Lib) (remoteCodec : RtpCodecCap) :
    List RtpCodecCap → Except PyErr (List RtpCodecCap × List RtpCodecCap)
  | [] => Except.ok ([], [])
  | lc :: rest => do
    let r ← matchCodecs lib lc.core remoteCodec.core true true
    let lc2 := { lc with parameters := r.2 }
    let rest2 ← matchLocalCodecs lib remoteCodec rest
    Except.ok (lc2 :: rest2.1, if r.1 then lc2 :: rest2.2 else rest2.2)

/-- First loop of `getExtendedRtpCapabilities`: match media codecs keeping
the order preferred by `remoteCaps`.  The state carries the (mutable) local
codec list and the extended codecs built so far.  The pydantic
`ExtendedCodec` model requires int payload types, so a missing preferred
payload type is a validation error. -/
def extendCodecsStep (lib : H264Lib)
    (st : List RtpCodecCap × List ExtendedCodecT) (remoteCodec : RtpCodecCap) :
    Except PyErr (List RtpCodecCap × List ExtendedCodecT) :=
  if isRtxCodecCap remoteCodec then Except.ok st
  else do
    let r ← matchLocalCodecs lib remoteCodec st.1
    match r.2 with
    | [] => Except.ok (r.1, st.2)
    | matchingLocalCodec :: _ =>
      match matchingLocalCodec.preferredPayloadType, remoteCodec.preferredPayloadType with
      | some lpt, some rpt =>
        Except.ok (r.1, st.2 ++ [{
          mimeType := matchingLocalCodec.mimeType,
          kind := matchingLocalCodec.kind,
          clockRate := matchingLocalCodec.clockRate,
          channels := matchingLocalCodec.channels,
          localPayloadType := lpt,
          remotePayloadType := rpt,
          localParameters := matchingLocalCodec.parameters,
          remoteParameters := remoteCodec.parameters,
          rtcpFeedback := reduceRtcpFeedback matchingLocalCodec.rtcpFeedback
            remoteCodec.rtcpFeedback }])
      | _, _ => Except.error (PyErr.typeError "ExtendedCodec payload type is None")

/-- Second loop of `getExtendedRtpCapabilities`: attach RTX payload types.
A local RTX codec matches when its `apt` parameter equals the local payload
type (Python `==` between a dict value and an int), same on the remote
side. -/
def matchRtxStep (localCodecs remoteCodecs : List RtpCodecCap)
    (ec : ExtendedCodecT) : ExtendedCodecT :=
  let matchingLocalRtxCodecs := localCodecs.filter (fun lc =>
    isRtxCodecCap lc ∧ pvalEqInt (pget lc.parameters "apt") ec.localPayloadType)
  let matchingRemoteRtxCodecs := remoteCodecs.filter (fun rc =>
    isRtxCodecCap rc ∧ pvalEqInt (pget rc.parameters "apt") ec.remotePayloadType)
  match matchingLocalRtxCodecs, matchingRemoteRtxCodecs with
  | l :: _, r :: _ =>
    { ec with localRtxPayloadType := l.preferredPayloadType,
              remoteRtxPayloadType := r.preferredPayloadType }
  | _, _ => ec

/-- Direction of an extended header extension, mirrored from the remote
direction (recvonly and sendonly swapped); any other value leaves the
initial value sendrecv in place. -/
def extDirection (remoteDirection : String) : String :=
  if remoteDirection = "sendrecv" then "sendrecv"
  else if remoteDirection = "recvonly" then "sendonly"
  else if remoteDirection = "sendonly" then "recvonly"
  else if remoteDirection = "inactive" then "inactive"
  else "sendrecv"

/-- `getExtendedRtpCapabilities(localCaps, remoteCaps)`. -/
def getExtendedRtpCapabilities (lib : H264Lib)
    (localCaps remoteCaps : RtpCapabilitiesT) :
    Except PyErr ExtendedRtpCapabilitiesT := do
  let r ← remoteCaps.codecs.foldlM (extendCodecsStep lib) (localCaps.codecs, [])
  let codecs := r.2.map (matchRtxStep r.1 remoteCaps.codecs)
  let headerExtensions := remoteCaps.headerExtensions.foldl (fun acc remoteExt =>
    match localCaps.headerExtensions.filter
        (fun localExt => matchHeaderExtensions localExt remoteExt) with
    | [] => acc
    | matchingLocalExt :: _ =>
      acc ++ [{ kind := remoteExt.kind, uri := remoteExt.uri,
                sendId := matchingLocalExt.preferredId,
                recvId := remoteExt.preferredId,
                encrypt := matchingLocalExt.preferredEncrypt,
                direction := extDirection remoteExt.direction }]) []
  Except.ok { codecs := codecs, headerExtensions := headerExtensions }

/-- `getRecvRtpCapabilities(extendedRtpCapabilities)`.

The non-RTX entry is built by `RtpCodecCapability(**extendedCodec.dict())`:
pydantic (v1) silently ignores the keyword arguments that
`RtpCodecCapability` does not declare (localPayloadType, remotePayloadType,
localParameters, remoteParameters, localRtxPayloadType,
remoteRtxPayloadType), so `preferredPayloadType` and `parameters` fall back
to their declared defaults None and the empty dict.  The RTX entry is
skipped when `remoteRtxPayloadType` is falsy (None or 0). -/
def getRecvRtpCapabilities (ext : ExtendedRtpCapabilitiesT) : RtpCapabilitiesT :=
  let codecs := ext.codecs.foldl (fun acc ec =>
    let codec : RtpCodecCap := {
      mimeType := ec.mimeType, kind := ec.kind, clockRate := ec.clockRate,
      channels := ec.channels, rtcpFeedback := ec.rtcpFeedback,
      preferredPayloadType := none, parameters := [] }
    let acc2 := acc ++ [codec]
    if ¬ truthyOptInt ec.remoteRtxPayloadType then acc2
    else acc2 ++ [{
      mimeType := ec.kind ++ "/rtx", kind := ec.kind,
      preferredPayloadType := ec.remoteRtxPayloadType,
      clockRate := ec.clockRate,
      parameters := [("apt", PVal.i ec.remotePayloadType)],
      rtcpFeedback := [] }]) []
  let headerExtensions := ext.headerExtensions.foldl (fun acc e =>
    if e.direction ≠ "sendrecv" ∧ e.direction ≠ "recvonly" then acc
    else acc ++ [({ kind := e.kind, uri := e.uri, preferredId := e.recvId,
                    preferredEncrypt := e.encrypt,
                    direction := e.direction } : RtpHeaderExtT)]) []
  { codecs := codecs, headerExtensions := headerExtensions }

/-- URI of the transport-wide congestion control extension. -/
def twccUri : String :=
  "http://www.ietf.org/id/draft-holmer-rmcat-transport-wide-cc-extensions-01"

/-- URI of the legacy abs-send-time bandwidth estimation extension. -/
def absSendTimeUri : String :=
  "http://www.webrtc.org/experiments/rtp-hdrext/abs-send-time"

/-- The codec-building loop of `getSendingRemoteRtpParameters`: codecs of
the given kind using the local payload type and the remote parameters, with
the RTX pair appended when a local RTX payload type was negotiated
(truthiness test). -/
def sendRemoteCodecsBase (kind : String)
    (ext : ExtendedRtpCapabilitiesT) : List RtpCodecParam :=
  ext.codecs.foldl (fun acc ec =>
    if ec.kind ≠ kind then acc
    else
      let codec : RtpCodecParam := {
        mimeType := ec.mimeType, payloadType := ec.localPayloadType,
        clockRate := ec.clockRate, channels := ec.channels,
        parameters := ec.remoteParameters, rtcpFeedback := ec.rtcpFeedback }
      let acc2 := acc ++ [codec]
      if ¬ truthyOptInt ec.localRtxPayloadType then acc2
      else acc2 ++ [{
        mimeType := ec.kind ++ "/rtx",
        payloadType := ec.localRtxPayloadType.getD 0,
        clockRate := ec.clockRate,
        parameters := [("apt", PVal.i ec.localPayloadType)],
        rtcpFeedback := [] }]) []

/-- The extension-building loop of `getSendingRemoteRtpParameters`:
extensions of the given kind usable for sending. -/
def sendRemoteHeaderExtensions (kind : String)
    (ext : ExtendedRtpCapabilitiesT) : List RtpHeaderExtParam :=
  ext.headerExtensions.foldl (fun acc e =>
    if e.kind ≠ some kind ∨ (e.direction ≠ "sendrecv" ∧ e.direction ≠ "sendonly") then acc
    else acc ++ [({ uri := e.uri, id := e.sendId, encrypt := e.encrypt,
                    parameters := [] } : RtpHeaderExtParam)]) []

/-- `getSendingRemoteRtpParameters(kind, extendedRtpCapabilities)`:
codec and extension lists of the given kind using remote parameters, then
the congestion feedback reduction (Transport-CC if available, REMB
otherwise). -/
def getSendingRemoteRtpParameters (kind : String)
    (ext : ExtendedRtpCapabilitiesT) : RtpParametersT :=
  let codecs0 := sendRemoteCodecsBase kind ext
  let headerExtensions := sendRemoteHeaderExtensions kind ext
  let codecs :=
    if headerExtensions.any (fun e => e.uri = twccUri) then
      codecs0.map (fun c =>
        { c with rtcpFeedback := c.rtcpFeedback.filter (fun fb => fb.type ≠ "goog-remb") })
    else if headerExtensions.any (fun e => e.uri = absSendTimeUri) then
      codecs0.map (fun c =>
        { c with rtcpFeedback := c.rtcpFeedback.filter (fun fb => fb.type ≠ "transport-cc") })
    else
      codecs0.map (fun c =>
        { c with rtcpFeedback := c.rtcpFeedback.filter (fun fb =>
            fb.type ≠ "transport-cc" ∧ fb.type ≠ "goog-remb") })
  { codecs := codecs, headerExtensions := headerExtensions }

/-- The scan loop of `reduceCodecs` with a capability codec: for each index,
if the codec matches (non-strict), append it; then, only when the next
codec is an RTX codec, append that one too and break.  Note that the break
sits inside the RTX test: when the match is not followed by an RTX codec
the loop keeps scanning. -/
def reduceCodecsLoop (lib : H264Lib) (capCodec : RtpCodecCap) :
    List RtpCodecParam → Except PyErr (List RtpCodecParam)
  | [] => Except.ok []
  | c :: rest => do
    let r ← matchCodecs lib c.core capCodec.core false false
    if r.1 then
      match rest with
      | c2 :: _ =>
        if isRtxCodecParam c2 then Except.ok [c, c2]
        else do
          let tail ← reduceCodecsLoop lib capCodec rest
          Except.ok (c :: tail)
      | [] => Except.ok [c]
    else reduceCodecsLoop lib capCodec rest

/-- `reduceCodecs(codecs, capCodec)`.  Without a capability codec take the
first codec (IndexError on an empty list) plus the second when it is RTX;
with one, scan via `reduceCodecsLoop` and raise when nothing matched. -/
def reduceCodecs (lib : H264Lib) (codecs : List RtpCodecParam)
    (capCodec : Option RtpCodecCap := none) :
    Except PyErr (List RtpCodecParam) :=
  match capCodec with
  | none =>
    match codecs with
    | [] => Except.error PyErr.indexError
    | c0 :: rest =>
      match rest with
      | c1 :: _ =>
        if isRtxCodecParam c1 then Except.ok [c0, c1] else Except.ok [c0]
      | [] => Except.ok [c0]
  | some cap => do
    let filteredCodecs ← reduceCodecsLoop lib cap codecs
    match filteredCodecs with
    | [] => Except.error (PyErr.typeError "no matching codec found")
    | _ => Except.ok filteredCodecs

/-- `RTP_PROBATOR_MID`. -/
def RTP_PROBATOR_MID : String := "probator"

/-- `RTP_PROBATOR_SSRC`. -/
def RTP_PROBATOR_SSRC : Int := 1234

/-- `RTP_PROBATOR_CODEC_PAYLOAD_TYPE`. -/
def RTP_PROBATOR_CODEC_PAYLOAD_TYPE : Int := 127

/-- `generateProbatorRtpParameters(videoRtpParameters)`: fixed identity
parameters for the RTP probator consumer (deep copy modelled by value
semantics); IndexError when the video parameters carry no codec. -/
def generateProbatorRtpParameters (videoRtpParameters : RtpParametersT) :
    Except PyErr RtpParametersT :=
  match videoRtpParameters.codecs with
  | [] => Except.error PyErr.indexError
  | c0 :: _ =>
    Except.ok {
      mid := some RTP_PROBATOR_MID,
      encodings := [{ ssrc := some RTP_PROBATOR_SSRC }],
      rtcp := some { cname := some "probator" },
      codecs := [{ c0 with payloadType := RTP_PROBATOR_CODEC_PAYLOAD_TYPE }],
      headerExtensions := videoRtpParameters.headerExtensions }

/-- `canSend(kind, extendedRtpCapabilities)`. -/
def canSend (kind : String) (ext : ExtendedRtpCapabilitiesT) : Bool :=
  (ext.codecs.filter (fun c => c.kind = kind)).length > 0

/-- `canReceive(rtpParameters, extendedRtpCapabilities)`. -/
def canReceive (rtpParameters : RtpParametersT)
    (ext : ExtendedRtpCapabilitiesT) : Bool :=
  match rtpParameters.codecs with
  | [] => false
  | firstMediaCodec :: _ =>
    (ext.codecs.filter
      (fun c => c.remotePayloadType = firstMediaCodec.payloadType)).length > 0

/-! ## Transport consume flow (`pymediasoup/transport.py`, `consume`)

The receiving Transport state that `consume` reads and writes.  Calls into
the native engine and the signaling channel are suspension points of the
cooperative model and always succeed here; a failed precondition raises,
leaving the state unchanged. -/

/-- One `consume` request (the arguments that matter to the probator
logic). -/
structure ConsumeReq where
  kind : String
  rtpParameters : RtpParametersT
deriving DecidableEq, Repr

/-- The fields of `Transport` read or written by `consume`. -/
structure TransportRecvS where
  direction : String
  extendedRtpCapabilities : ExtendedRtpCapabilitiesT
  connectListenerSet : Bool
  connectionState : String
  closed : Bool
  probatorConsumerCreated : Bool
  consumers : List ConsumeReq
deriving DecidableEq, Repr

/-- The precondition checks of `consume` in source order: closed state,
transport direction, connect listener and `canReceive`; any failure raises
before the consumer is registered. -/
def consumeChecksOk (s : TransportRecvS) (r : ConsumeReq) : Bool :=
  ¬ s.closed ∧ s.direction = "recv" ∧
  (s.connectListenerSet ∨ s.connectionState ≠ "new") ∧
  canReceive r.rtpParameters s.extendedRtpCapabilities

/-- One `consume` call: on success the consumer is registered and, when the
probator consumer has not been created yet and the kind is video, one
additional `handler.receive` with the probator parameters is performed and
the one-shot flag is set.  The second component lists the probe receptions
performed by this call.  (The IndexError branch of
`generateProbatorRtpParameters` would propagate with the flag still unset;
it is unreachable because `canReceive` already required a codec.) -/
def consumeStep (s : TransportRecvS) (r : ConsumeReq) :
    TransportRecvS × List RtpParametersT :=
  if ¬ consumeChecksOk s r then (s, [])
  else if ¬ s.probatorConsumerCreated ∧ r.kind = "video" then
    match generateProbatorRtpParameters r.rtpParameters with
    | Except.ok p =>
      ({ s with
         consumers := s.consumers ++ [r]
         probatorConsumerCreated := true }, [p])
    | Except.error _ => ({ s with consumers := s.consumers ++ [r] }, [])
  else ({ s with consumers := s.consumers ++ [r] }, [])

/-- A sequence of `consume` calls on one Transport (externally serialized,
per the concurrency contract); collects all probe receptions. -/
def runConsumes (s : TransportRecvS) :
    List ConsumeReq → TransportRecvS × List RtpParametersT
  | [] => (s, [])
  | r :: rest =>
    let step := consumeStep s r
    let rec2 := runConsumes step.1 rest
    (rec2.1, step.2 ++ rec2.2)

/-- A freshly constructed receiving Transport (`Transport.__init__`):
not closed, no consumers, probator flag unset. -/
def mkRecvTransport (ext : ExtendedRtpCapabilitiesT)
    (connectListenerSet : Bool) (connectionState : String) : TransportRecvS :=
  { direction := "recv", extendedRtpCapabilities := ext,
    connectListenerSet := connectListenerSet,
    connectionState := connectionState, closed := false,
    probatorConsumerCreated := false, consumers := [] }

/-! ## Transport produceData flow (`pymediasoup/transport.py`, `produceData`) -/

/-- The arguments of `produceData`, which are also exactly the arguments
forwarded to `handler.sendDataChannel` (the handler builds the
`SctpStreamParameters` in use from them verbatim). -/
structure ProduceDataArgs where
  ordered : Option Bool := none
  maxPacketLifeTime : Option Int := none
  maxRetransmits : Option Int := none
  priority : Option String := none
  label : Option String := none
  protocol : Option String := none
deriving DecidableEq, Repr

/-- The fields of a sending Transport read by `produceData`. -/
structure TransportSendInfo where
  direction : String
  maxSctpMessageSize : Option Int
  connectListenerSet : Bool
  connectionState : String
  producedataListenerSet : Bool
deriving DecidableEq, Repr

/-- `Transport.produceData` up to the `handler.sendDataChannel` call:
precondition checks in source order, then the normalization
`if options.maxPacketLifeTime or options.maxRetransmits: options.ordered = False`
(Python truthiness: None and 0 are falsy).  Returns the arguments passed
onward. -/
def produceData (s : TransportSendInfo) (options : ProduceDataArgs) :
    Except PyErr ProduceDataArgs :=
  if s.direction ≠ "send" then
    Except.error (PyErr.unsupportedError "not a sending Transport")
  else if ¬ truthyOptInt s.maxSctpMessageSize then
    Except.error (PyErr.unsupportedError "SCTP not enabled by remote Transport")
  else if ¬ s.connectListenerSet ∧ s.connectionState = "new" then
    Except.error (PyErr.typeError "no connect listener set into this transport")
  else if ¬ s.producedataListenerSet then
    Except.error (PyErr.typeError "no producedata listener set into this transport")
  else
    let ordered2 :=
      if truthyOptInt options.maxPacketLifeTime ∨ truthyOptInt options.maxRetransmits
      then some false else options.ordered
    Except.ok { options with ordered := ordered2 }

/-! ## SDP value model

Values stored in parsed session dictionaries: Python ints, strings, None,
dicts and lists. -/

/-- A Python value as stored in a session-description dictionary. -/
inductive PyVal where
  | pint : Int → PyVal
  | pstr : String → PyVal
  | pnone : PyVal
  | pdict : List (String × PyVal) → PyVal
  | plist : List PyVal → PyVal

/-- A string-keyed Python dictionary. -/
abbrev PyDict := List (String × PyVal)

/-- `d.get(k)`: the stored value or nothing when absent. -/
def dget (d : PyDict) (k : String) : Option PyVal :=
  match d.find? (fun kv => kv.1 = k) with
  | some kv => some kv.2
  | none => none

/-- `d[k] = v`: replace in place, keeping insertion order, else append. -/
def dset : PyDict → String → PyVal → PyDict
  | [], k, v => [(k, v)]
  | kv :: rest, k, v =>
    if kv.1 = k then (k, v) :: rest else kv :: dset rest k v

/-! ## Media sections (`pymediasoup/handlers/sdp/media_section.py`)

A media section owns a plain dictionary `_mediaDict`.  The keys touched by
`close` and `disable` are modelled as fields; every other key (type,
protocol, connection, rtp, fmtp, setup, ...) lives untouched in `rest`. -/

/-- The `_mediaDict` of a `MediaSection`. -/
structure MediaDictS where
  mid : Option PyVal := none
  port : Option Int := none
  direction : Option String := none
  ext : Option PyVal := none
  ssrcs : Option PyVal := none
  ssrcGroups : Option PyVal := none
  simulcast : Option PyVal := none
  simulcast03 : Option PyVal := none
  rids : Option PyVal := none
  extmapAllowMixed : Option PyVal := none
  payloads : Option PyVal := none
  rest : PyDict := []

/-- The `mid` property: `str(self._mediaDict.get('mid', ''))`.  Media mids
in this codebase are ints or strings; `str(None)` is the string None. -/
def MediaDictS.midStr (m : MediaDictS) : String :=
  match m.mid with
  | some (PyVal.pint n) => toString n
  | some (PyVal.pstr s) => s
  | some PyVal.pnone => "None"
  | some _ => ""
  | none => ""

/-- The `closed` property: `self._mediaDict.get('port') == 0` (a missing
port is None, which does not equal 0). -/
def MediaDictS.closedB (m : MediaDictS) : Bool :=
  m.port = some 0

/-- `MediaSection.disable()`: direction inactive; pop ext, ssrcs,
ssrcGroups, simulcast, simulcast_03 and rids.  The port is untouched. -/
def MediaDictS.disable (m : MediaDictS) : MediaDictS :=
  { m with direction := some "inactive", ext := none, ssrcs := none,
           ssrcGroups := none, simulcast := none, simulcast03 := none,
           rids := none }

/-- `MediaSection.close()`: like `disable` but also sets the port to 0 and
pops extmapAllowMixed. -/
def MediaDictS.close (m : MediaDictS) : MediaDictS :=
  { m with direction := some "inactive", port := some 0, ext := none,
           ssrcs := none, ssrcGroups := none, simulcast := none,
           simulcast03 := none, rids := none, extmapAllowMixed := none }

/-! ## Remote SDP builder (`pymediasoup/handlers/sdp/remote_sdp.py`) -/

/-- The `origin` entry of the session record built by
`RemoteSdp.__init__`. -/
structure OriginS where
  address : String := "0.0.0.0"
  ipVer : Int := 4
  netType : String := "IN"
  sessionId : Int := 10000
  sessionVersion : Int := 0
  username : String := "mediasoup-client"
deriving DecidableEq, Repr

/-- The `RemoteSdp` state: ordered media sections (the dictionaries are the
same objects as the entries of `_sdpDict['media']`, so one list models
both), the mid-to-index map, the first-registered mid and the session
record fields.  `groupsMids` is the mids string of the single BUNDLE group,
present exactly when DTLS parameters were given. -/
structure RemoteSdpS where
  mediaSections : List MediaDictS := []
  midToIndex : List (String × Nat) := []
  firstMid : Option String := none
  hasDtls : Bool := false
  version : Int := 0
  origin : OriginS := {}
  name : String := "-"
  timingStart : Int := 0
  timingStop : Int := 0
  icelite : Option (Option String) := none
  msidSemantic : Option (String × String) := none
  fingerprint : Option (String × String) := none
  groupsMids : Option String := none

/-- `_midToIndex.get(mid, -1)` (the missing case is the -1 branch). -/
def dictGetNat (d : List (String × Nat)) (k : String) : Option Nat :=
  match d.find? (fun kv => kv.1 = k) with
  | some kv => some kv.2
  | none => none

/-- The mids of all currently non-closed media sections. -/
def bundleMidsList (sections : List MediaDictS) : List String :=
  (sections.filter (fun m => ! m.closedB)).map MediaDictS.midStr

/-- `_regenerateBundleMids()`: a no-op without DTLS parameters, else the
BUNDLE mids string becomes the space-joined mids of all non-closed
sections. -/
def regenerateBundleMids (s : RemoteSdpS) : RemoteSdpS :=
  if ¬ s.hasDtls then s
  else
    { s with
      groupsMids := some (String.intercalate " " (bundleMidsList s.mediaSections)) }

/-- `disableMediaSection(mid)`: look the section up and disable it in
place. -/
def disableMediaSection (s : RemoteSdpS) (mid : String) :
    Except PyErr RemoteSdpS :=
  match dictGetNat s.midToIndex mid with
  | none => Except.error (PyErr.exception ("no media section found with mid " ++ mid))
  | some idx =>
    match s.mediaSections[idx]? with
    | none => Except.error PyErr.indexError
    | some m =>
      Except.ok { s with mediaSections := s.mediaSections.set idx m.disable }

/-- `closeMediaSection(mid)`: the first-registered mid is only disabled
(closing it would invalidate the bundled transport); any other mid is
closed and the BUNDLE mids are regenerated. -/
def closeMediaSection (s : RemoteSdpS) (mid : String) :
    Except PyErr RemoteSdpS :=
  match dictGetNat s.midToIndex mid with
  | none => Except.error (PyErr.exception ("no media section found with mid " ++ mid))
  | some idx =>
    if s.firstMid = some mid then disableMediaSection s mid
    else
      match s.mediaSections[idx]? with
      | none => Except.error PyErr.indexError
      | some m =>
        Except.ok (regenerateBundleMids
          { s with mediaSections := s.mediaSections.set idx m.close })

/-- `getSdp()`: increase the origin session version, then hand the session
record to the grammar writer.  The writer only ever mutates a session
record by filling a missing version or name (see `write` below), which the
constructor always sets, so the state change of `getSdp` is exactly this
increment. -/
def getSdp (s : RemoteSdpS) : RemoteSdpS :=
  { s with origin := { s.origin with sessionVersion := s.origin.sessionVersion + 1 } }

/-! ## SDP grammar engine (`pymediasoup/handlers/sdp/sdp_transform.py`)

The table-driven parser/writer.  Each grammar rule carries an optional
name, an optional push key, optional capture names, a matcher for its
regular expression and a format (a string or, for the callable formats of
the source, a function of the captured dictionary).  The rule regexes used
here consist of literals and character classes whose starred groups are
always followed by a character outside the class, so greedy maximal-munch
matching is equivalent to the backtracking regex semantics; each matcher is
written accordingly and returns the list of capture groups. -/

/-- Python truthiness of a dictionary lookup result (`if o.get(k):`). -/
def pyTruthyOpt : Option PyVal → Bool
  | none => false
  | some (PyVal.pint n) => n ≠ 0
  | some (PyVal.pstr s) => s ≠ ""
  | some PyVal.pnone => false
  | some (PyVal.pdict d) => ¬ d.isEmpty
  | some (PyVal.plist l) => ¬ l.isEmpty

/-- Python `str()` of a scalar value (the rules used here only ever format
ints and strings; container rendering does not arise). -/
def pyStr : PyVal → String
  | PyVal.pint n => toString n
  | PyVal.pstr s => s
  | PyVal.pnone => "None"
  | PyVal.pdict _ => "dict"
  | PyVal.plist _ => "list"

/-- A digit character. -/
def isDigitCh (c : Char) : Bool := 48 ≤ c.toNat ∧ c.toNat ≤ 57

/-- A whitespace character as matched by the regex class backslash-s
(space, tab, newline, carriage return, form feed, vertical tab). -/
def isWsCh (c : Char) : Bool :=
  c = ' ' ∨ c = '\t' ∨ c = '\n' ∨ c = '\x0d' ∨ c = '\x0c' ∨ c = '\x0b'

/-- A word character (regex class backslash-w): letters, digits,
underscore. -/
def isWordCh (c : Char) : Bool :=
  (97 ≤ c.toNat ∧ c.toNat ≤ 122) ∨ (65 ≤ c.toNat ∧ c.toNat ≤ 90) ∨
  isDigitCh c ∨ c = '_'

/-- The value of a nonempty all-digit character run. -/
def digitsVal (ds : List Char) : Option Nat :=
  if ds.isEmpty then none
  else if ds.all isDigitCh then
    some (ds.foldl (fun a c => a * 10 + (c.toNat - 48)) 0)
  else none

/-- Python `int(v)` on a string: optional surrounding whitespace, optional
sign, a nonempty digit run (digit-group underscores do not arise in the
inputs considered).  None models the ValueError. -/
def pyIntParse (s : String) : Option Int :=
  let cs := s.data.dropWhile isWsCh
  let cs := (cs.reverse.dropWhile isWsCh).reverse
  match cs with
  | '+' :: ds => (digitsVal ds).map (fun n => (n : Int))
  | '-' :: ds => (digitsVal ds).map (fun n => -(n : Int))
  | ds => (digitsVal ds).map (fun n => (n : Int))

/-- `toIntIfInt(v)`: the int value when `int(v)` succeeds, else the string
itself. -/
def toIntIfInt (v : String) : PyVal :=
  match pyIntParse v with
  | some n => PyVal.pint n
  | none => PyVal.pstr v

/-- Match a literal character sequence at the front. -/
def chompLit : List Char → List Char → Option (List Char)
  | [], cs => some cs
  | l :: ls, c :: cs => if c = l then chompLit ls cs else none
  | _ :: _, [] => none

/-- Require one character satisfying the class. -/
def chompOne (p : Char → Bool) : List Char → Option (Char × List Char)
  | c :: cs => if p c then some (c, cs) else none
  | [] => none

/-- Maximal run of characters of the class (a starred group). -/
def spanP (p : Char → Bool) (cs : List Char) : String × List Char :=
  (String.mk (cs.takeWhile p), cs.dropWhile p)

/-- The default rule regex `(.*)`. -/
def regDefault (s : String) : Option (List (Option String)) :=
  some [some s]

/-- `v`: `(backslash-d*)$` — the whole content is a digit run (possibly
empty). -/
def regV (s : String) : Option (List (Option String)) :=
  if s.data.all isDigitCh then some [some s] else none

/-- `o`: `(S*) (d*) (d*) (S*) IP(d) (S*)` where S is non-whitespace and d a
digit (anchored at the start only). -/
def regO (s : String) : Option (List (Option String)) := do
  let cs := s.data
  let (username, cs) := spanP (fun c => ¬ isWsCh c) cs
  let cs ← chompLit [' '] cs
  let (sessionId, cs) := spanP isDigitCh cs
  let cs ← chompLit [' '] cs
  let (sessionVersion, cs) := spanP isDigitCh cs
  let cs ← chompLit [' '] cs
  let (netType, cs) := spanP (fun c => ¬ isWsCh c) cs
  let cs ← chompLit [' ', 'I', 'P'] cs
  let (d, cs) ← chompOne isDigitCh cs
  let cs ← chompLit [' '] cs
  let (address, _) := spanP (fun c => ¬ isWsCh c) cs
  some [some username, some sessionId, some sessionVersion, some netType,
        some (String.mk [d]), some address]

/-- `t`: `(d*) (d*)`. -/
def regT (s : String) : Option (List (Option String)) := do
  let cs := s.data
  let (start, cs) := spanP isDigitCh cs
  let cs ← chompLit [' '] cs
  let (stop, _) := spanP isDigitCh cs
  some [some start, some stop]

/-- `c`: `IN IP(d) (S*)`. -/
def regC (s : String) : Option (List (Option String)) := do
  let cs ← chompLit ['I', 'N', ' ', 'I', 'P'] s.data
  let (d, cs) ← chompOne isDigitCh cs
  let cs ← chompLit [' '] cs
  let (ip, _) := spanP (fun c => ¬ isWsCh c) cs
  some [some (String.mk [d]), some ip]

/-- `b`: `(TIAS|AS|CT|RR|RS):(d*)` (alternatives tried in source order). -/
def regB (s : String) : Option (List (Option String)) :=
  let tryOne : String → Option (List (Option String)) := fun t => do
    let cs ← chompLit t.data s.data
    let cs ← chompLit [':'] cs
    let (limit, _) := spanP isDigitCh cs
    some [some t, some limit]
  match tryOne "TIAS" with
  | some r => some r
  | none =>
    match tryOne "AS" with
    | some r => some r
    | none =>
      match tryOne "CT" with
      | some r => some r
      | none =>
        match tryOne "RR" with
        | some r => some r
        | none => tryOne "RS"

/-- `m`: `(w*) (d*) ([w/]*)(?: (.*))?`. -/
def regM (s : String) : Option (List (Option String)) := do
  let cs := s.data
  let (typ, cs) := spanP isWordCh cs
  let cs ← chompLit [' '] cs
  let (port, cs) := spanP isDigitCh cs
  let cs ← chompLit [' '] cs
  let (protocol, cs) := spanP (fun c => isWordCh c ∨ c = '/') cs
  match cs with
  | ' ' :: rest => some [some typ, some port, some protocol, some (String.mk rest)]
  | _ => some [some typ, some port, some protocol, none]

/-- `a=rtpmap`: `rtpmap:(d*) ([w-.]*)(?:s*/(d*)(?:s*/(S*))?)?`. -/
def regRtpmap (s : String) : Option (List (Option String)) := do
  let cs ← chompLit "rtpmap:".data s.data
  let (payload, cs) := spanP isDigitCh cs
  let cs ← chompLit [' '] cs
  let (codec, cs) := spanP (fun c => isWordCh c ∨ c = '-' ∨ c = '.') cs
  let (_, cs2) := spanP isWsCh cs
  match cs2 with
  | '/' :: cs3 =>
    let (rate, cs4) := spanP isDigitCh cs3
    let (_, cs5) := spanP isWsCh cs4
    match cs5 with
    | '/' :: cs6 =>
      let (encoding, _) := spanP (fun c => ¬ isWsCh c) cs6
      some [some payload, some codec, some rate, some encoding]
    | _ => some [some payload, some codec, some rate, none]
  | _ => some [some payload, some codec, none, none]

/-- `a=fmtp`: `fmtp:(d*) ([S| ]*)` (the class admits every character except
non-space whitespace). -/
def regFmtp (s : String) : Option (List (Option String)) := do
  let cs ← chompLit "fmtp:".data s.data
  let (payload, cs) := spanP isDigitCh cs
  let cs ← chompLit [' '] cs
  let (config, _) := spanP (fun c => ¬ isWsCh c ∨ c = '|' ∨ c = ' ') cs
  some [some payload, some config]

/-- `a=control`: `control:(.*)`. -/
def regControl (s : String) : Option (List (Option String)) := do
  let cs ← chompLit "control:".data s.data
  some [some (String.mk cs)]

/-- `a=rtcp`: `rtcp:(d*)(?: (S*) IP(d) (S*))?`. -/
def regRtcp (s : String) : Option (List (Option String)) := do
  let cs ← chompLit "rtcp:".data s.data
  let (port, cs) := spanP isDigitCh cs
  let tryTail : Option (List (Option String)) := do
    let cs ← chompLit [' '] cs
    let (netType, cs) := spanP (fun c => ¬ isWsCh c) cs
    let cs ← chompLit [' ', 'I', 'P'] cs
    let (d, cs) ← chompOne isDigitCh cs
    let cs ← chompLit [' '] cs
    let (address, _) := spanP (fun c => ¬ isWsCh c) cs
    some [some port, some netType, some (String.mk [d]), some address]
  match tryTail with
  | some r => some r
  | none => some [some port, none, none, none]

/-- A format entry of the grammar table: a plain format string, or one of
the callable formats (a function of the captured dictionary returning the
format string). -/
inductive GFmt where
  | fstr : String → GFmt
  | ffn : (PyDict → String) → GFmt

/-- One line rule of the grammar table. -/
structure GRule where
  rname : Option String := none
  push : Option String := none
  names : Option (List String) := none
  reg : String → Option (List (Option String)) := regDefault
  fmt : GFmt := GFmt.fstr "%s"

/-- The `o` rule. -/
def ruleO : GRule :=
  { rname := some "origin"
    reg := regO
    names := some ["username", "sessionId", "sessionVersion", "netType", "ipVer", "address"]
    fmt := GFmt.fstr "%s %s %d %s IP%d %s" }

/-- The `t` rule. -/
def ruleT : GRule :=
  { rname := some "timing"
    reg := regT
    names := some ["start", "stop"]
    fmt := GFmt.fstr "%d %d" }

/-- The `c` rule. -/
def ruleC : GRule :=
  { rname := some "connection"
    reg := regC
    names := some ["version", "ip"]
    fmt := GFmt.fstr "IN IP%d %s" }

/-- The `b` rule. -/
def ruleB : GRule :=
  { push := some "bandwidth"
    reg := regB
    names := some ["type", "limit"]
    fmt := GFmt.fstr "%s:%s" }

/-- The `m` rule. -/
def ruleM : GRule :=
  { reg := regM
    names := some ["type", "port", "protocol", "payloads"]
    fmt := GFmt.fstr "%s %d %s %s" }

/-- The `a=rtpmap` rule (callable format). -/
def ruleRtpmap : GRule :=
  { push := some "rtp"
    reg := regRtpmap
    names := some ["payload", "codec", "rate", "encoding"]
    fmt := GFmt.ffn (fun o =>
      if pyTruthyOpt (dget o "encoding") then "rtpmap:%d %s/%s/%s"
      else if pyTruthyOpt (dget o "rate") then "rtpmap:%d %s/%s"
      else "rtpmap:%d %s") }

/-- The `a=fmtp` rule. -/
def ruleFmtp : GRule :=
  { push := some "fmtp"
    reg := regFmtp
    names := some ["payload", "config"]
    fmt := GFmt.fstr "fmtp:%d %s" }

/-- The `a=control` rule. -/
def ruleControl : GRule :=
  { rname := some "control"
    reg := regControl
    fmt := GFmt.fstr "control:%s" }

/-- The `a=rtcp` rule (callable format: the address part is emitted only
when present). -/
def ruleRtcp : GRule :=
  { rname := some "rtcp"
    reg := regRtcp
    names := some ["port", "netType", "ipVer", "address"]
    fmt := GFmt.ffn (fun o =>
      if pyTruthyOpt (dget o "address") then "rtcp:%d %s IP%d %s"
      else "rtcp:%d") }

/-- The grammar table, keyed by the one-character field marker.  The `a`
entry is restricted to the first four attribute rules of the source in
source order (rtpmap, fmtp, control, rtcp): they are the only attribute
rules the theorems below ever exercise — `parse` dispatches an attribute
line to the first rule whose regex matches (for the inputs used, always one
of these four), and `write` consults a rule only when its name or push key
occurs in the record, which for the records arising here only the keys rtp,
fmtp and rtcp of these rules do. -/
def grammar (field : Char) : Option (List GRule) :=
  match field with
  | 'v' => some [{ rname := some "version", reg := regV }]
  | 'o' => some [ruleO]
  | 's' => some [{ rname := some "name" }]
  | 'i' => some [{ rname := some "description" }]
  | 'u' => some [{ rname := some "uri" }]
  | 'e' => some [{ rname := some "email" }]
  | 'p' => some [{ rname := some "phone" }]
  | 'z' => some [{ rname := some "timezones" }]
  | 'r' => some [{ rname := some "repeats" }]
  | 't' => some [ruleT]
  | 'c' => some [ruleC]
  | 'b' => some [ruleB]
  | 'm' => some [ruleM]
  | 'a' => some [ruleRtpmap, ruleFmtp, ruleControl, ruleRtcp]
  | _ => none

/-- The capture-attaching loop of `attachProperties`: for each capture
name, when the group matched, store its coerced value. -/
def attachNames : List String → List (Option String) → PyDict → PyDict
  | [], _, loc => loc
  | _ :: _, [], loc => loc
  | n :: ns, g :: gs, loc =>
    match g with
    | some gv => attachNames ns gs (dset loc n (toIntIfInt gv))
    | none => attachNames ns gs loc

/-- `attachProperties(match, location, names, rawName)`. -/
def attachProperties (groups : List (Option String)) (location : PyDict)
    (names : Option (List String)) (rawName : Option String) :
    Except PyErr PyDict :=
  match rawName, names with
  | some rn, none =>
    match groups with
    | some g :: _ => Except.ok (dset location rn (toIntIfInt g))
    | _ => Except.error (PyErr.typeError "int() argument is None")
  | _, some ns => Except.ok (attachNames ns groups location)
  | none, none => Except.error (PyErr.typeError "names is None")

/-- `parseReg(obj, location, content)`: create the push list or named
sub-dictionary when needed (Python truthiness: a falsy existing value is
replaced), attach the captures, and append to the push list. -/
def parseReg (obj : GRule) (location : PyDict) (content : String) :
    Except PyErr PyDict := do
  let needsBlank := obj.rname.isSome ∧ obj.names.isSome
  let groups ← match obj.reg content with
    | some gs => Except.ok gs
    | none => Except.error (PyErr.typeError "match is None")
  match obj.push with
  | some pk => do
    let location1 :=
      if ¬ pyTruthyOpt (dget location pk) then dset location pk (PyVal.plist [])
      else location
    let keyLocation ← attachProperties groups [] obj.names obj.rname
    let lst ← match dget location1 pk with
      | some (PyVal.plist l) => Except.ok l
      | _ => Except.error (PyErr.attributeError "append")
    Except.ok (dset location1 pk (PyVal.plist (lst ++ [PyVal.pdict keyLocation])))
  | none =>
    if needsBlank then do
      let nm := obj.rname.getD ""
      let location1 :=
        if ¬ pyTruthyOpt (dget location nm) then dset location nm (PyVal.pdict [])
        else location
      let d ← match dget location1 nm with
        | some (PyVal.pdict d) => Except.ok d
        | _ => Except.error (PyErr.typeError "not a dict")
      let d2 ← attachProperties groups d obj.names obj.rname
      Except.ok (dset location1 nm (PyVal.pdict d2))
    else
      attachProperties groups location obj.names obj.rname

/-- Python `str.splitlines` restricted to the line terminators occurring in
session descriptions (carriage return + line feed, and each alone). -/
def splitLinesAux : List Char → List Char → List String
  | [], acc => if acc.isEmpty then [] else [String.mk acc.reverse]
  | '\x0d' :: '\n' :: rest, acc => String.mk acc.reverse :: splitLinesAux rest []
  | '\x0d' :: rest, acc => String.mk acc.reverse :: splitLinesAux rest []
  | '\n' :: rest, acc => String.mk acc.reverse :: splitLinesAux rest []
  | c :: rest, acc => splitLinesAux rest (c :: acc)

/-- `sdp.splitlines()`. -/
def splitLines (s : String) : List String := splitLinesAux s.data []

/-- The line filter `^([a-z])=(.*)`. -/
def lineOk (l : String) : Bool :=
  match l.data with
  | c :: '=' :: _ => 97 ≤ c.toNat ∧ c.toNat ≤ 122
  | _ => false

/-- One line of `parse`: an `m` line opens a new media dictionary (with
empty rtp and fmtp lists) and attribute lines attach to the most recently
opened media dictionary (the session before the first `m` line); the line
is dispatched to the first rule of its field whose regex matches, and
silently dropped when none does. -/
def parseLine (st : PyDict × List PyDict) (l : String) :
    Except PyErr (PyDict × List PyDict) := do
  match l.data with
  | field :: _ :: cs =>
    let content := String.mk cs
    let (session, media) := st
    let media :=
      if field = 'm' then
        media ++ [[("rtp", PyVal.plist []), ("fmtp", PyVal.plist [])]]
      else media
    let rules ← match grammar field with
      | some rs => Except.ok rs
      | none => Except.error (PyErr.keyError (String.mk [field]))
    match rules.find? (fun obj => (obj.reg content).isSome) with
    | none => Except.ok (session, media)
    | some obj =>
      if media.isEmpty then do
        let session2 ← parseReg obj session content
        Except.ok (session2, media)
      else do
        let loc := (media.getLast?).getD []
        let loc2 ← parseReg obj loc content
        Except.ok (session, media.dropLast ++ [loc2])
  | _ => Except.ok st

/-- `parse(sdp)`: fold the filtered lines and attach the media list. -/
def parse (sdp : String) : Except PyErr PyDict := do
  let lines := (splitLines sdp).filter lineOk
  let st ← lines.foldlM parseLine (([] : PyDict), ([] : List PyDict))
  Except.ok (dset st.1 "media" (PyVal.plist (st.2.map PyVal.pdict)))

/-- Python percent-formatting restricted to the conversions of the grammar
table (`%s`, `%d`, and the literal `%%`): `%d` of a non-int raises, and
leftover or missing arguments raise, as in Python. -/
def formatPctAux : List Char → List PyVal → List Char → Except PyErr String
  | [], args, acc =>
    if args.isEmpty then Except.ok (String.mk acc.reverse)
    else Except.error (PyErr.typeError "not all arguments converted during string formatting")
  | '%' :: 's' :: rest, a :: args, acc =>
    formatPctAux rest args ((pyStr a).data.reverse ++ acc)
  | '%' :: 's' :: _, [], _ =>
    Except.error (PyErr.typeError "not enough arguments for format string")
  | '%' :: 'd' :: rest, a :: args, acc =>
    (match a with
     | PyVal.pint n => formatPctAux rest args ((toString n).data.reverse ++ acc)
     | _ => Except.error (PyErr.typeError "%d format: a number is required"))
  | '%' :: 'd' :: _, [], _ =>
    Except.error (PyErr.typeError "not enough arguments for format string")
  | '%' :: '%' :: rest, args, acc => formatPctAux rest args ('%' :: acc)
  | '%' :: _ :: _, _, _ =>
    Except.error (PyErr.exception "unsupported format character")
  | ['%'], _, _ =>
    Except.error (PyErr.exception "incomplete format")
  | c :: rest, args, acc => formatPctAux rest args (c :: acc)

/-- `string % tuple(args)`. -/
def formatPct (fmt : String) (args : List PyVal) : Except PyErr String :=
  formatPctAux fmt.data args []

/-- `makeLine(field, obj, location)`: build the format string (a callable
format receives the pushed element or the named sub-dictionary), collect
the arguments — for a rule with both a name and capture names every capture
name is indexed unconditionally (a missing key raises KeyError), for a rule
with capture names only, present non-None values are collected — then
percent-format. -/
def makeLine (field : Char) (obj : GRule) (location : PyDict) :
    Except PyErr String := do
  let fmtStr ← match obj.fmt with
    | GFmt.fstr s => Except.ok s
    | GFmt.ffn f =>
      match obj.push with
      | some _ => Except.ok (f location)
      | none =>
        match obj.rname with
        | some nm =>
          match dget location nm with
          | some (PyVal.pdict d) => Except.ok (f d)
          | some _ => Except.error (PyErr.attributeError "get")
          | none => Except.error (PyErr.keyError nm)
        | none => Except.error (PyErr.typeError "no name")
  let strLine := String.mk [field] ++ "=" ++ fmtStr
  let args ← match obj.names with
    | some ns =>
      match obj.rname with
      | some nm => do
        let d ← match dget location nm with
          | some (PyVal.pdict d) => Except.ok d
          | some _ => Except.error (PyErr.typeError "not subscriptable")
          | none => Except.error (PyErr.keyError nm)
        ns.foldlM (fun acc n =>
          match dget d n with
          | some v => Except.ok (acc ++ [v])
          | none => Except.error (PyErr.keyError n)) ([] : List PyVal)
      | none =>
        Except.ok (ns.foldl (fun acc n =>
          match dget location n with
          | some PyVal.pnone => acc
          | some v => acc ++ [v]
          | none => acc) [])
    | none =>
      match obj.rname with
      | some nm =>
        match dget location nm with
        | some v => Except.ok [v]
        | none => Except.error (PyErr.keyError nm)
      | none => Except.error (PyErr.keyError "name")
  formatPct strLine args

/-- `defaultOuterOrder`. -/
def defaultOuterOrder : List Char :=
  ['v', 'o', 's', 'i', 'u', 'e', 'p', 'c', 'b', 't', 'r', 'z', 'a']

/-- `defaultInnerOrder`. -/
def defaultInnerOrder : List Char := ['i', 'c', 'b', 'a']

/-- The rule loop of `write` over one field and one location: a named rule
emits a line when its key is present and not None; a push rule emits one
line per element of its (list) value. -/
def writeRules (field : Char) (location : PyDict) (acc : List String)
    (rules : List GRule) : Except PyErr (List String) :=
  rules.foldlM (fun acc obj =>
    match obj.rname with
    | some nm =>
      match dget location nm with
      | some PyVal.pnone => Except.ok acc
      | some _ => do
        let ln ← makeLine field obj location
        Except.ok (acc ++ [ln])
      | none => Except.ok acc
    | none =>
      match obj.push with
      | some pk =>
        match dget location pk with
        | some (PyVal.plist els) =>
          els.foldlM (fun acc2 el =>
            match el with
            | PyVal.pdict ed => do
              let ln ← makeLine field obj ed
              Except.ok (acc2 ++ [ln])
            | _ => Except.error (PyErr.attributeError "get")) acc
        | some PyVal.pnone => Except.ok acc
        | some _ => Except.error (PyErr.typeError "not iterable")
        | none => Except.ok acc
      | none => Except.ok acc) acc

/-- `write(session)`: fill a missing version or name, run the
media-payloads default loop (whose attribute assignment on a plain
dictionary raises AttributeError when a media entry has no payloads), then
emit the session lines in outer order and each media block in inner order,
joined with carriage return + line feed. -/
def write (session : PyDict) : Except PyErr String := do
  let session := match dget session "version" with
    | none => dset session "version" (PyVal.pint 0)
    | some PyVal.pnone => dset session "version" (PyVal.pint 0)
    | some _ => session
  let session := match dget session "name" with
    | none => dset session "name" (PyVal.pstr " ")
    | some PyVal.pnone => dset session "name" (PyVal.pstr " ")
    | some _ => session
  let mediaList ← match dget session "media" with
    | some (PyVal.plist ms) => Except.ok ms
    | none => Except.ok []
    | some _ => Except.error (PyErr.typeError "not iterable")
  let _ ← mediaList.foldlM (fun _ mv =>
    match mv with
    | PyVal.pdict md =>
      (match dget md "payloads" with
       | none => Except.error (PyErr.attributeError "payloads")
       | some PyVal.pnone => Except.error (PyErr.attributeError "payloads")
       | some _ => Except.ok ())
    | _ => Except.error (PyErr.attributeError "get")) ()
  let sdp ← defaultOuterOrder.foldlM (fun acc f => do
      let rules ← match grammar f with
        | some rs => Except.ok rs
        | none => Except.error (PyErr.keyError (String.mk [f]))
      writeRules f session acc rules) ([] : List String)
  let sdp ← mediaList.foldlM (fun acc mv => do
      let md ← match mv with
        | PyVal.pdict md => Except.ok md
        | _ => Except.error (PyErr.attributeError "get")
      let mRule ← match grammar 'm' with
        | some (r :: _) => Except.ok r
        | _ => Except.error (PyErr.keyError "m")
      let ln ← makeLine 'm' mRule md
      defaultInnerOrder.foldlM (fun acc2 f => do
          let rules ← match grammar f with
            | some rs => Except.ok rs
            | none => Except.error (PyErr.keyError (String.mk [f]))
          writeRules f md acc2 rules) (acc ++ [ln])) sdp
  Except.ok (String.intercalate "\r\n" sdp)

/-! ## Concrete capability sets used by the evaluation theorems -/

/-- An H264 profile library instance for concrete runs; the inputs below
contain no H264 codec, so none of its functions is ever consulted. -/
def trivialH264Lib : H264Lib :=
  { isSameProfile := fun _ _ => true,
    generateProfileLevelIdForAnswer := fun _ _ => Except.ok none }

/-- Local capabilities: opus at 111, VP8 at 96 with RTX at 97. -/
def localCapsC2 : RtpCapabilitiesT :=
  { codecs := [
      { mimeType := "audio/opus", kind := "audio", clockRate := 48000,
        channels := some 2, preferredPayloadType := some 111 },
      { mimeType := "video/VP8", kind := "video", clockRate := 90000,
        preferredPayloadType := some 96 },
      { mimeType := "video/rtx", kind := "video", clockRate := 90000,
        preferredPayloadType := some 97,
        parameters := [("apt", PVal.i 96)] }] }

/-- Remote capabilities: opus at 100, VP8 at 101 with RTX at 102. -/
def remoteCapsC2 : RtpCapabilitiesT :=
  { codecs := [
      { mimeType := "audio/opus", kind := "audio", clockRate := 48000,
        channels := some 2, preferredPayloadType := some 100 },
      { mimeType := "video/VP8", kind := "video", clockRate := 90000,
        preferredPayloadType := some 101 },
      { mimeType := "video/rtx", kind := "video", clockRate := 90000,
        preferredPayloadType := some 102,
        parameters := [("apt", PVal.i 101)] }] }

/-- A VP8 codec at payload 96 (parameters form). -/
def vp8At96 : RtpCodecParam :=
  { mimeType := "video/VP8", clockRate := 90000, payloadType := 96 }

/-- A second VP8 codec at payload 98. -/
def vp8At98 : RtpCodecParam :=
  { mimeType := "video/VP8", clockRate := 90000, payloadType := 98 }

/-- The RTX codec paired with payload 98. -/
def rtxAt99 : RtpCodecParam :=
  { mimeType := "video/rtx", clockRate := 90000, payloadType := 99,
    parameters := [("apt", PVal.i 98)] }

/-- A VP8 capability codec used as the `reduceCodecs` filter. -/
def vp8CapCodec : RtpCodecCap :=
  { mimeType := "video/VP8", kind := "video", clockRate := 90000,
    preferredPayloadType := some 96 }

/-- A well-formed session description: version, origin, name, timing, one
audio media section and an rtcp attribute without the optional address part
(valid per RFC 3605). -/
def sdpInputC1 : String :=
  "v=0\r\no=- 20518 0 IN IP4 203.0.113.1\r\ns=-\r\nt=0 0\r\nm=audio 49152 RTP/AVP 0\r\na=rtcp:60000"

/-- The media dictionary `parse` produces for the media section of
`sdpInputC1`. -/
def mediaDictC1 : PyDict :=
  [("rtp", PyVal.plist []),
   ("fmtp", PyVal.plist []),
   ("type", PyVal.pstr "audio"),
   ("port", PyVal.pint 49152),
   ("protocol", PyVal.pstr "RTP/AVP"),
   ("payloads", PyVal.pint 0),
   ("rtcp", PyVal.pdict [("port", PyVal.pint 60000)])]

/-- The session record `parse` produces for `sdpInputC1`. -/
def sdpParsedC1 : PyDict :=
  [("version", PyVal.pint 0),
   ("origin", PyVal.pdict [("username", PyVal.pstr "-"), ("sessionId", PyVal.pint 20518), ("sessionVersion", PyVal.pint 0), ("netType", PyVal.pstr "IN"), ("ipVer", PyVal.pint 4), ("address", PyVal.pstr "203.0.113.1")]),
   ("name", PyVal.pstr "-"),
   ("timing", PyVal.pdict [("start", PyVal.pint 0), ("stop", PyVal.pint 0)]),
   ("media", PyVal.plist [PyVal.pdict mediaDictC1])]

/-- A sending Transport on which every `produceData` precondition check
passes. -/
def sendOkInfo : TransportSendInfo :=
  { direction := "send", maxSctpMessageSize := some 262144,
    connectListenerSet := true, connectionState := "new",
    producedataListenerSet := true }

/-- Helper: no codec of the parameter set carries an RTCP feedback entry of
the given type. -/
def noFeedbackOfType (p : RtpParametersT) (t : String) : Prop :=
  ∀ c ∈ p.codecs, ∀ fb ∈ c.rtcpFeedback, fb.type ≠ t

/-- Helper: some header extension of the parameter set has the given
uri. -/
def hasUri (p : RtpParametersT) (u : String) : Bool :=
  p.headerExtensions.any (fun e => e.uri = u)

/-- First media section of the C5 witness state (mid 0, active port). -/
def witSecA : MediaDictS := { mid := some (PyVal.pstr "0"), port := some 7 }

/-- Second media section of the C5 witness state (mid 1, active port). -/
def witSecB : MediaDictS := { mid := some (PyVal.pstr "1"), port := some 7 }

/-- C5 witness builder state: two registered sections, mid 0 first. -/
def witSdp : RemoteSdpS :=
  { mediaSections := [witSecA, witSecB],
    midToIndex := [("0", 0), ("1", 1)],
    firstMid := some "0", hasDtls := true,
    groupsMids := some "0 1" }

/-! ## List lemmas about the BUNDLE mids -/

/-- Unfolding `bundleMidsList` over a cons. -/
theorem bmlCons (a : MediaDictS) (t : List MediaDictS) :
    bundleMidsList (a :: t) =
      (if a.closedB then [] else [a.midStr]) ++ bundleMidsList t := by
  by_cases h : a.closedB
  · simp [bundleMidsList, List.filter_cons, h]
  · simp [bundleMidsList, List.filter_cons, h]

/-- A mid occurring in the BUNDLE mids comes from a non-closed section at
some index. -/
theorem bmlMemIndex (x : String) (l : List MediaDictS)
    (hx : x ∈ bundleMidsList l) :
    ∃ j, ∃ hj : j < l.length,
      (l.get ⟨j, hj⟩).midStr = x ∧ (l.get ⟨j, hj⟩).closedB = false := by
  induction l with
  | nil => simp [bundleMidsList] at hx
  | cons a t ih =>
    rw [bmlCons] at hx
    by_cases hc : a.closedB
    · rw [if_pos hc] at hx
      simp only [List.nil_append] at hx
      obtain ⟨j, hj, h1, h2⟩ := ih hx
      exact ⟨j + 1, Nat.succ_lt_succ hj, h1, h2⟩
    · rw [if_neg hc] at hx
      rcases List.mem_append.mp hx with hx1 | hx2
      · have : x = a.midStr := by simpa using hx1
        exact ⟨0, Nat.succ_pos _, this.symm, by simpa using hc⟩
      · obtain ⟨j, hj, h1, h2⟩ := ih hx2
        exact ⟨j + 1, Nat.succ_lt_succ hj, h1, h2⟩

/-- Replacing one section by another with the same mid and the same closed
status leaves the BUNDLE mids unchanged. -/
theorem bmlSetCongr (l : List MediaDictS) (i : Nat) (m m2 : MediaDictS)
    (hm : l[i]? = some m) (hmid : m2.midStr = m.midStr)
    (hcl : m2.closedB = m.closedB) :
    bundleMidsList (l.set i m2) = bundleMidsList l := by
  induction l generalizing i with
  | nil => simp at hm
  | cons a t ih =>
    cases i with
    | zero =>
      have ha : a = m := by simpa using hm
      subst ha
      show bundleMidsList (m2 :: t) = bundleMidsList (a :: t)
      rw [bmlCons, bmlCons, hcl, hmid]
    | succ i =>
      have hm2 : t[i]? = some m := by simpa using hm
      show bundleMidsList (a :: t.set i m2) = bundleMidsList (a :: t)
      rw [bmlCons, bmlCons, ih i hm2]

/-- After replacing the only section carrying mid `x` by a closed one, `x`
no longer occurs in the BUNDLE mids. -/
theorem bmlNotMemSet (l : List MediaDictS) (i : Nat) (mC : MediaDictS)
    (x : String) (hcl : mC.closedB = true)
    (hdist : ∀ j, ∀ hj : j < l.length, j ≠ i → (l.get ⟨j, hj⟩).midStr ≠ x) :
    x ∉ bundleMidsList (l.set i mC) := by
  induction l generalizing i with
  | nil => simp [bundleMidsList]
  | cons a t ih =>
    cases i with
    | zero =>
      intro hx
      show False
      rw [show (a :: t).set 0 mC = mC :: t from rfl, bmlCons, if_pos hcl] at hx
      simp only [List.nil_append] at hx
      obtain ⟨j, hj, h1, _⟩ := bmlMemIndex x t hx
      exact hdist (j + 1) (Nat.succ_lt_succ hj) (Nat.succ_ne_zero j) h1
    | succ i =>
      intro hx
      rw [show (a :: t).set (i + 1) mC = a :: t.set i mC from rfl, bmlCons] at hx
      rcases List.mem_append.mp hx with hx1 | hx2
      · by_cases hc : a.closedB
        · rw [if_pos hc] at hx1
          simp at hx1
        · rw [if_neg hc] at hx1
          have : x = a.midStr := by simpa using hx1
          exact hdist 0 (Nat.succ_pos _) (Nat.zero_ne_add_one i) this.symm
      · refine ih i ?_ hx2
        intro j hj hji
        exact hdist (j + 1) (Nat.succ_lt_succ hj) (fun h => hji (Nat.succ_injective h))

/-! ## Theorems for the claims -/

/-- C1: evaluation at a failing input.  `parse` accepts the well-formed
description `sdpInputC1` (its rtcp attribute has no address part, which the
rtcp rule regex makes optional), but `write` on the parsed record raises
KeyError for the missing capture netType: `makeLine` indexes every capture
name of a name+names rule unconditionally, even those of the absent
optional part.  Hence `parse(write(parse(x)))` cannot equal `parse(x)`
here: the round trip crashes instead of reproducing the record. -/
theorem mediasoup_C1_eval :
    parse sdpInputC1 = Except.ok sdpParsedC1 ∧
    write sdpParsedC1 = Except.error (PyErr.keyError "netType") :=
  ⟨rfl, rfl⟩

/-- C9: for every non-empty codec list, `reduceCodecs` without a capability
codec returns the first codec, plus the second codec exactly when that
second codec is an RTX codec; the result has length 1 or 2, never more. -/
theorem mediasoup_C9 (lib : H264Lib) (c0 : RtpCodecParam)
    (rest : List RtpCodecParam) :
    ∃ l, reduceCodecs lib (c0 :: rest) none = Except.ok l ∧
      (l.length = 1 ∨ l.length = 2) ∧
      l = c0 :: (match rest.head? with
        | some c1 => if isRtxCodecParam c1 then [c1] else []
        | none => []) := by
  cases rest with
  | nil => exact ⟨[c0], rfl, Or.inl rfl, rfl⟩
  | cons c1 tl =>
    by_cases h : isRtxCodecParam c1 = true
    · exact ⟨[c0, c1], by simp [reduceCodecs, h], Or.inr rfl, by simp [h]⟩
    · exact ⟨[c0], by simp [reduceCodecs, h], Or.inl rfl, by simp [h]⟩

/-- C3: evaluation at a failing input.  With codecs [VP8 at 96, VP8 at 98,
RTX at 99] and a VP8 capability filter, `reduceCodecs` returns all three
codecs: the break of its scan loop sits inside the RTX test, so after the
first match (not followed by RTX) the loop keeps scanning and also keeps
the second match and its RTX pair.  The claim requires exactly the first
matching codec (here [VP8 at 96], length 1). -/
theorem mediasoup_C3_eval :
    reduceCodecs trivialH264Lib [vp8At96, vp8At98, rtxAt99] (some vp8CapCodec) =
      Except.ok [vp8At96, vp8At98, rtxAt99] ∧
    ¬ ((3 : Nat) ≤ 2) := by
  exact ⟨rfl, by decide⟩

/-- C2: evaluation at a failing input.  For the matched opus and VP8
codecs, `getRecvRtpCapabilities` builds its non-RTX entries via
`RtpCodecCapability(**extendedCodec.dict())`, which silently drops the
remote payload type (pydantic ignores unknown keyword arguments), so both
non-RTX entries carry preferredPayloadType None instead of the remote
payload types 100 and 101; only the synthesized RTX entry carries the
negotiated remote RTX payload type 102. -/
theorem mediasoup_C2_eval :
    (getExtendedRtpCapabilities trivialH264Lib localCapsC2 remoteCapsC2).map
        (fun ext => (getRecvRtpCapabilities ext).codecs.map
          (fun c => (isRtxCodecCap c, c.preferredPayloadType))) =
      Except.ok [(false, none), (false, none), (true, some 102)] ∧
    remoteCapsC2.codecs.map (fun c => c.preferredPayloadType) =
      [some 100, some 101, some 102] := by
  exact ⟨rfl, rfl⟩

/-- The codecs of `getSendingRemoteRtpParameters` are the base codecs with
the branch-dependent feedback filter applied. -/
theorem gsrpCodecsEq (kind : String) (ext : ExtendedRtpCapabilitiesT) :
    (getSendingRemoteRtpParameters kind ext).codecs =
      (if (sendRemoteHeaderExtensions kind ext).any (fun e => e.uri = twccUri) then
        (sendRemoteCodecsBase kind ext).map (fun c =>
          { c with rtcpFeedback := c.rtcpFeedback.filter (fun fb => fb.type ≠ "goog-remb") })
      else if (sendRemoteHeaderExtensions kind ext).any (fun e => e.uri = absSendTimeUri) then
        (sendRemoteCodecsBase kind ext).map (fun c =>
          { c with rtcpFeedback := c.rtcpFeedback.filter (fun fb => fb.type ≠ "transport-cc") })
      else
        (sendRemoteCodecsBase kind ext).map (fun c =>
          { c with rtcpFeedback := c.rtcpFeedback.filter (fun fb =>
              fb.type ≠ "transport-cc" ∧ fb.type ≠ "goog-remb") })) := rfl

/-- Membership in a list of codecs whose feedback was filtered yields the
filter predicate for every remaining feedback entry. -/
theorem memStripFeedback (cs : List RtpCodecParam) (p : RtcpFeedbackT → Bool)
    (c : RtpCodecParam)
    (hc : c ∈ cs.map (fun c0 => { c0 with rtcpFeedback := c0.rtcpFeedback.filter p })) :
    ∀ fb ∈ c.rtcpFeedback, p fb = true := by
  intro fb hfb
  obtain ⟨c0, _, rfl⟩ := List.mem_map.mp hc
  exact (List.mem_filter.mp hfb).2

/-- C4: `getSendingRemoteRtpParameters` enforces a single congestion
feedback mechanism: with the transport-wide congestion control extension
present no codec keeps goog-remb feedback; otherwise with the abs-send-time
extension present no codec keeps transport-cc; otherwise neither type
survives. -/
theorem mediasoup_C4 (kind : String) (ext : ExtendedRtpCapabilitiesT) :
    (hasUri (getSendingRemoteRtpParameters kind ext) twccUri = true →
      noFeedbackOfType (getSendingRemoteRtpParameters kind ext) "goog-remb") ∧
    (hasUri (getSendingRemoteRtpParameters kind ext) twccUri = false →
      hasUri (getSendingRemoteRtpParameters kind ext) absSendTimeUri = true →
      noFeedbackOfType (getSendingRemoteRtpParameters kind ext) "transport-cc") ∧
    (hasUri (getSendingRemoteRtpParameters kind ext) twccUri = false →
      hasUri (getSendingRemoteRtpParameters kind ext) absSendTimeUri = false →
      noFeedbackOfType (getSendingRemoteRtpParameters kind ext) "transport-cc" ∧
      noFeedbackOfType (getSendingRemoteRtpParameters kind ext) "goog-remb") := by
  refine ⟨?_, ?_, ?_⟩
  · intro hA c hc fb hfb
    have h1 : (sendRemoteHeaderExtensions kind ext).any (fun e => e.uri = twccUri) = true := hA
    rw [gsrpCodecsEq, if_pos h1] at hc
    have := memStripFeedback _ _ _ hc fb hfb
    simpa using this
  · intro hA hB c hc fb hfb
    have h1 : (sendRemoteHeaderExtensions kind ext).any (fun e => e.uri = twccUri) = false := hA
    have h2 : (sendRemoteHeaderExtensions kind ext).any (fun e => e.uri = absSendTimeUri) = true := hB
    rw [gsrpCodecsEq, if_neg (by simp [h1]), if_pos h2] at hc
    have := memStripFeedback _ _ _ hc fb hfb
    simpa using this
  · intro hA hB
    have h1 : (sendRemoteHeaderExtensions kind ext).any (fun e => e.uri = twccUri) = false := hA
    have h2 : (sendRemoteHeaderExtensions kind ext).any (fun e => e.uri = absSendTimeUri) = false := hB
    constructor
    · intro c hc fb hfb
      rw [gsrpCodecsEq, if_neg (by simp [h1]), if_neg (by simp [h2])] at hc
      have := memStripFeedback _ _ _ hc fb hfb
      have h3 := of_decide_eq_true this
      exact h3.1
    · intro c hc fb hfb
      rw [gsrpCodecsEq, if_neg (by simp [h1]), if_neg (by simp [h2])] at hc
      have := memStripFeedback _ _ _ hc fb hfb
      have h3 := of_decide_eq_true this
      exact h3.2

/-- C8, counterexample: with ordered true and maxPacketLifeTime 0 (a set
value, but falsy in Python) `produceData` neither rejects nor normalizes:
the call succeeds and the forwarded stream arguments still carry ordered
true together with the set maxPacketLifeTime, refuting the claim that the
contradictory combination is never passed onward. -/
theorem mediasoup_C8_counterexample :
    ∃ r, produceData sendOkInfo
        { ordered := some true, maxPacketLifeTime := some 0 } = Except.ok r ∧
      r.ordered = some true ∧ r.maxPacketLifeTime = some 0 ∧
      ¬ (r.ordered = some false ∨ r.maxPacketLifeTime = none) :=
  ⟨{ ordered := some true, maxPacketLifeTime := some 0 }, rfl, rfl, rfl,
   by decide⟩

/-- C8, amended: whenever `produceData` succeeds and a nonzero (truthy)
maxPacketLifeTime or maxRetransmits was given, the forwarded stream
arguments carry ordered false, with the lifetime and retransmit values
passed through unchanged; with a falsy value 0 the combination is forwarded
as given. -/
theorem mediasoup_C8_amended (s : TransportSendInfo) (o r : ProduceDataArgs)
    (h : produceData s o = Except.ok r)
    (hset : truthyOptInt o.maxPacketLifeTime = true ∨
            truthyOptInt o.maxRetransmits = true) :
    r.ordered = some false ∧ r.maxPacketLifeTime = o.maxPacketLifeTime ∧
      r.maxRetransmits = o.maxRetransmits := by
  simp only [produceData] at h
  split_ifs at h with h1 h2 h3 h4
  cases h
  exact ⟨rfl, rfl, rfl⟩

/-- C8, witness for the amended theorem at a concrete input. -/
theorem mediasoup_C8_witness :
    ({ ordered := some false, maxPacketLifeTime := some 5000 } :
        ProduceDataArgs).ordered = some false ∧
    ({ ordered := some false, maxPacketLifeTime := some 5000 } :
        ProduceDataArgs).maxPacketLifeTime =
      ({ ordered := some true, maxPacketLifeTime := some 5000 } :
        ProduceDataArgs).maxPacketLifeTime ∧
    ({ ordered := some false, maxPacketLifeTime := some 5000 } :
        ProduceDataArgs).maxRetransmits =
      ({ ordered := some true, maxPacketLifeTime := some 5000 } :
        ProduceDataArgs).maxRetransmits :=
  mediasoup_C8_amended sendOkInfo
    { ordered := some true, maxPacketLifeTime := some 5000 }
    { ordered := some false, maxPacketLifeTime := some 5000 }
    rfl (Or.inl (by decide))

/-- C6: each `getSdp` call increments the origin session version counter by
exactly 1; two consecutive calls increase it by exactly 1 each. -/
theorem mediasoup_C6 (s : RemoteSdpS) :
    (getSdp s).origin.sessionVersion = s.origin.sessionVersion + 1 ∧
    (getSdp (getSdp s)).origin.sessionVersion = s.origin.sessionVersion + 2 := by
  refine ⟨rfl, ?_⟩
  simp only [getSdp]
  omega

/-- C10: `getSdp` leaves every field of the builder state other than the
origin session version unchanged: media sections, mid map, BUNDLE mids,
fingerprint, name, timing, and all other origin fields. -/
theorem mediasoup_C10 (s : RemoteSdpS) :
    (getSdp s).mediaSections = s.mediaSections ∧
    (getSdp s).midToIndex = s.midToIndex ∧
    (getSdp s).firstMid = s.firstMid ∧
    (getSdp s).hasDtls = s.hasDtls ∧
    (getSdp s).version = s.version ∧
    (getSdp s).name = s.name ∧
    (getSdp s).timingStart = s.timingStart ∧
    (getSdp s).timingStop = s.timingStop ∧
    (getSdp s).icelite = s.icelite ∧
    (getSdp s).msidSemantic = s.msidSemantic ∧
    (getSdp s).fingerprint = s.fingerprint ∧
    (getSdp s).groupsMids = s.groupsMids ∧
    (getSdp s).origin.address = s.origin.address ∧
    (getSdp s).origin.ipVer = s.origin.ipVer ∧
    (getSdp s).origin.netType = s.origin.netType ∧
    (getSdp s).origin.sessionId = s.origin.sessionId ∧
    (getSdp s).origin.username = s.origin.username ∧
    (getSdp s).origin.sessionVersion = s.origin.sessionVersion + 1 :=
  ⟨rfl, rfl, rfl, rfl, rfl, rfl, rfl, rfl, rfl, rfl, rfl, rfl, rfl, rfl,
   rfl, rfl, rfl, rfl⟩

/-- `find?` only depends on the values of the predicate. -/
theorem findExt {α : Type} (p q : α → Bool) (l : List α)
    (h : ∀ x, p x = q x) : l.find? p = l.find? q := by
  induction l with
  | nil => rfl
  | cons a t ih => rw [List.find?_cons, List.find?_cons, h a, ih]

/-- `consumeStep` never changes the fields that the precondition checks
read. -/
theorem consumeStepInv (s : TransportRecvS) (r : ConsumeReq) :
    ((consumeStep s r).1).closed = s.closed ∧
    ((consumeStep s r).1).direction = s.direction ∧
    ((consumeStep s r).1).connectListenerSet = s.connectListenerSet ∧
    ((consumeStep s r).1).connectionState = s.connectionState ∧
    ((consumeStep s r).1).extendedRtpCapabilities = s.extendedRtpCapabilities := by
  unfold consumeStep
  split_ifs
  all_goals
    first
      | exact ⟨rfl, rfl, rfl, rfl, rfl⟩
      | (rcases hE : generateProbatorRtpParameters r.rtpParameters with e | p
         all_goals exact ⟨rfl, rfl, rfl, rfl, rfl⟩)

/-- The precondition checks are invariant under `consumeStep`. -/
theorem consumeChecksInv (s : TransportRecvS) (r x : ConsumeReq) :
    consumeChecksOk ((consumeStep s r).1) x = consumeChecksOk s x := by
  obtain ⟨h1, h2, h3, h4, h5⟩ := consumeStepInv s r
  unfold consumeChecksOk
  rw [h1, h2, h3, h4, h5]

/-- Once the probator flag is set, a `consume` call performs no probe
reception and keeps the flag set. -/
theorem consumeStepFlagTrue (s : TransportRecvS) (r : ConsumeReq)
    (h : s.probatorConsumerCreated = true) :
    (consumeStep s r).2 = [] ∧
    (consumeStep s r).1.probatorConsumerCreated = true := by
  unfold consumeStep
  split_ifs with h1 h2
  all_goals
    first
      | exact ⟨rfl, h⟩
      | exact absurd h h2.1

/-- Once the probator flag is set, no later `consume` call ever performs a
probe reception. -/
theorem runConsumesFlagTrue (reqs : List ConsumeReq) (s : TransportRecvS)
    (h : s.probatorConsumerCreated = true) :
    (runConsumes s reqs).2 = [] := by
  induction reqs generalizing s with
  | nil => rfl
  | cons r rest ih =>
    obtain ⟨h1, h2⟩ := consumeStepFlagTrue s r h
    simp [runConsumes, h1, ih _ h2]

/-- When `canReceive` holds, the parameters carry a codec, so the probator
parameters are well defined and carry the reserved mid. -/
theorem canReceiveProbator (rp : RtpParametersT) (ext : ExtendedRtpCapabilitiesT)
    (h : canReceive rp ext = true) :
    ∃ p, generateProbatorRtpParameters rp = Except.ok p ∧
      p.mid = some RTP_PROBATOR_MID := by
  rcases rp with ⟨mid, codecs, hx, enc, rc⟩
  cases codecs with
  | nil => simp [canReceive] at h
  | cons c t => exact ⟨_, rfl, rfl⟩

/-- Successfully built probator parameters carry the reserved mid. -/
theorem generateProbatorMid (rp q : RtpParametersT)
    (h : generateProbatorRtpParameters rp = Except.ok q) :
    q.mid = some RTP_PROBATOR_MID := by
  rcases rp with ⟨mid, codecs, hx, enc, rc⟩
  cases codecs with
  | nil => cases h
  | cons c t =>
    cases h
    rfl

/-- The probe receptions of a consume sequence starting with the probator
flag unset: exactly one reception, at the first successful video consume,
with the probator parameters of that consumer; none when no video consume
succeeds. -/
theorem runConsumesProbes (reqs : List ConsumeReq) (s : TransportRecvS)
    (h : s.probatorConsumerCreated = false) :
    (runConsumes s reqs).2 =
      (match reqs.find? (fun r => consumeChecksOk s r && (r.kind == "video")) with
       | none => []
       | some r =>
         match generateProbatorRtpParameters r.rtpParameters with
         | Except.ok p => [p]
         | Except.error _ => []) := by
  induction reqs generalizing s with
  | nil => rfl
  | cons r rest ih =>
    by_cases hc : consumeChecksOk s r = true
    · have hcr : canReceive r.rtpParameters s.extendedRtpCapabilities = true := by
        have := of_decide_eq_true hc
        exact this.2.2.2
      by_cases hv : r.kind = "video"
      · obtain ⟨p, hgen, hpm⟩ := canReceiveProbator _ _ hcr
        have hstep : consumeStep s r =
            ({ s with
                consumers := s.consumers ++ [r]
                probatorConsumerCreated := true }, [p]) := by
          unfold consumeStep
          rw [if_neg (by simp [hc])]
          rw [if_pos ⟨by simp [h], hv⟩]
          rw [hgen]
        rw [List.find?_cons]
        have hpred : (consumeChecksOk s r && (r.kind == "video")) = true := by
          rw [hc, hv]
          rfl
        rw [hpred]
        simp only [runConsumes, hstep]
        rw [runConsumesFlagTrue rest _ rfl, hgen]
        simp
      · have hstep : consumeStep s r =
            ({ s with consumers := s.consumers ++ [r] }, []) := by
          unfold consumeStep
          rw [if_neg (by simp [hc])]
          rw [if_neg (by intro hx; exact hv hx.2)]
        rw [List.find?_cons]
        have hpred : (consumeChecksOk s r && (r.kind == "video")) = false := by
          have : (r.kind == "video") = false := by
            simpa using hv
          rw [this, Bool.and_false]
        rw [hpred]
        simp only [runConsumes, hstep, List.nil_append]
        rw [ih _ (show ({ s with consumers := s.consumers ++ [r] } :
          TransportRecvS).probatorConsumerCreated = false from h)]
        have hpq : ∀ x, (consumeChecksOk { s with consumers := s.consumers ++ [r] } x
            && (x.kind == "video")) = (consumeChecksOk s x && (x.kind == "video")) := by
          intro x
          have hx := consumeChecksInv s r x
          rw [hstep] at hx
          rw [hx]
        rw [findExt _ _ rest hpq]
    · have hstep : consumeStep s r = (s, []) := by
        unfold consumeStep
        rw [if_pos (by simp [hc])]
      rw [List.find?_cons]
      have hcf : consumeChecksOk s r = false := Bool.eq_false_iff.mpr hc
      have hpred : (consumeChecksOk s r && (r.kind == "video")) = false := by
        rw [hcf, Bool.false_and]
      rw [hpred]
      simp only [runConsumes, hstep, List.nil_append]
      exact ih s h

/-- C7: on a fresh receiving Transport, the probe receptions over any
consume sequence are exactly one reception for the first successful video
consume (with the reserved mid probator), and none otherwise; no later
consume ever triggers another probe. -/
theorem mediasoup_C7 (ext : ExtendedRtpCapabilitiesT) (cl : Bool) (cs : String)
    (reqs : List ConsumeReq) :
    ((runConsumes (mkRecvTransport ext cl cs) reqs).2 =
      (match reqs.find? (fun r =>
          consumeChecksOk (mkRecvTransport ext cl cs) r && (r.kind == "video")) with
       | none => []
       | some r =>
         match generateProbatorRtpParameters r.rtpParameters with
         | Except.ok p => [p]
         | Except.error _ => [])) ∧
    ∀ p ∈ (runConsumes (mkRecvTransport ext cl cs) reqs).2,
      p.mid = some RTP_PROBATOR_MID := by
  have hmain := runConsumesProbes reqs (mkRecvTransport ext cl cs) rfl
  refine ⟨hmain, ?_⟩
  intro p hp
  rw [hmain] at hp
  rcases hfind : reqs.find? (fun r =>
      consumeChecksOk (mkRecvTransport ext cl cs) r && (r.kind == "video")) with _ | r
  · rw [hfind] at hp
    simp at hp
  · rw [hfind] at hp
    have hp2 : p ∈ (match generateProbatorRtpParameters r.rtpParameters with
      | Except.ok q => [q]
      | Except.error _ => ([] : List RtpParametersT)) := hp
    rcases hE : generateProbatorRtpParameters r.rtpParameters with e | q
    · rw [hE] at hp2
      simp at hp2
    · rw [hE] at hp2
      have : p = q := by simpa using hp2
      rw [this]
      exact generateProbatorMid _ _ hE

/-- C5: closing a registered mid never removes the section from the
ordered sequence.  Closing the first-registered mid only disables it: the
port (hence the non-closed status) and the BUNDLE mids are unchanged.
Closing any other mid zeroes the port of its section and removes the mid
from the regenerated BUNDLE mids. -/
theorem mediasoup_C5 (s : RemoteSdpS) (mid : String) (idx : Nat) (m : MediaDictS)
    (hidx : dictGetNat s.midToIndex mid = some idx)
    (hm : s.mediaSections[idx]? = some m)
    (hdist : ∀ j, ∀ hj : j < s.mediaSections.length, j ≠ idx →
      (s.mediaSections.get ⟨j, hj⟩).midStr ≠ mid)
    (hopen : m.closedB = false)
    (hdtls : s.hasDtls = true) :
    (s.firstMid = some mid →
      closeMediaSection s mid =
        Except.ok { s with mediaSections := s.mediaSections.set idx m.disable } ∧
      m.disable.port = m.port ∧
      m.disable.closedB = false ∧
      (s.mediaSections.set idx m.disable).length = s.mediaSections.length ∧
      ({ s with mediaSections := s.mediaSections.set idx m.disable } : RemoteSdpS).groupsMids
        = s.groupsMids ∧
      bundleMidsList (s.mediaSections.set idx m.disable) = bundleMidsList s.mediaSections) ∧
    (s.firstMid ≠ some mid →
      ∃ s2, closeMediaSection s mid = Except.ok s2 ∧
        s2.mediaSections = s.mediaSections.set idx m.close ∧
        m.close.port = some 0 ∧
        s2.mediaSections.length = s.mediaSections.length ∧
        mid ∉ bundleMidsList s2.mediaSections ∧
        s2.groupsMids = some (String.intercalate " " (bundleMidsList s2.mediaSections))) := by
  constructor
  · intro hfirst
    have hdis : m.disable.closedB = m.closedB := rfl
    refine ⟨?_, rfl, by rw [hdis, hopen], List.length_set .., rfl,
      bmlSetCongr _ _ _ _ hm rfl rfl⟩
    simp only [closeMediaSection, disableMediaSection, hidx, hm]
    rw [if_pos hfirst]
  · intro hfirst
    refine ⟨regenerateBundleMids
      { s with mediaSections := s.mediaSections.set idx m.close }, ?_, ?_, rfl, ?_, ?_, ?_⟩
    · simp only [closeMediaSection, hidx, hm]
      rw [if_neg hfirst]
    · simp [regenerateBundleMids, hdtls]
    · simp [regenerateBundleMids, hdtls, List.length_set]
    · have hnm := bmlNotMemSet s.mediaSections idx m.close mid rfl hdist
      simpa [regenerateBundleMids, hdtls] using hnm
    · simp [regenerateBundleMids, hdtls]

/-- C5 witness: closing mid 1 (not the first-registered mid) of the
concrete builder state. -/
theorem mediasoup_C5_witness :
    ∃ s2, closeMediaSection witSdp "1" = Except.ok s2 ∧
      s2.mediaSections = witSdp.mediaSections.set 1 witSecB.close ∧
      witSecB.close.port = some 0 ∧
      s2.mediaSections.length = witSdp.mediaSections.length ∧
      "1" ∉ bundleMidsList s2.mediaSections ∧
      s2.groupsMids = some (String.intercalate " " (bundleMidsList s2.mediaSections)) :=
  (mediasoup_C5 witSdp "1" 1 witSecB rfl rfl (by decide) rfl rfl).2 (by decide)

end Pymediasoup
